import Mathlib

/-!
Verification of the College-Invader-Games core (enemy grid, projectile pool,
collision resolution) against its natural-language specification.

The JavaScript sources are shallowly embedded:
* numbers are modelled as exact rationals (`ℚ`) for coordinates/speeds and as
  integers (`ℤ`) for tick counters and scores;
* a destroyed grid cell (the source stores the boolean `false` there) is
  `none`; a live cell is `some e`;
* a JavaScript `TypeError` (reading a property of `undefined`) is modelled by
  an `Option`-valued result, `none` standing for the thrown exception;
* a numeric property that may be missing (reading it yields `undefined`, and
  arithmetic on `undefined` yields `NaN`) is an `Option ℚ`; a `<=` comparison
  against such a value is `false` in the `none` case, since every comparison
  with `NaN` is false in JavaScript;
* `Array.prototype.splice` at an index is `List.eraseIdx` (both are no-ops
  past the end of the array), and `indexOf`-based removal of a bullet object
  is `List.erase` (every bullet in the running game is a distinct object, so
  `indexOf` finds exactly the first value-equal occurrence).

Sprite sizes and speeds are constructor-set constants in the source
(`Enemy.js` lines 34-46, `Bullet.js` lines 24-25) and are never mutated, so
they are module constants here rather than record fields.
-/

namespace CollegeInvaders

/-- Canvas width in pixels (`uiConstants.js`: `gameCanvas.width = 640`). -/
def CANVAS_WIDTH : ℚ := 640

/-- Canvas height in pixels (`uiConstants.js`: `gameCanvas.height = 480`). -/
def CANVAS_HEIGHT : ℚ := 480

/-- Side padding bounding enemy movement (`uiConstants.js`: `PADDING.SIDE`). -/
def PADDING_SIDE : ℚ := 60

/-- Bottom padding reserved for the player (`uiConstants.js`: `PADDING.BOTTOM`). -/
def PADDING_BOTTOM : ℚ := 80

/-- Number of grid rows at wave start (`enemyConstants.js`: `GRID_SIZE.ROWS`). -/
def GRID_ROWS : Nat := 5

/-- Number of grid columns at wave start (`enemyConstants.js`: `GRID_SIZE.COLUMNS`). -/
def GRID_COLUMNS : Nat := 11

/-- Enemy sprite width (`Enemy.js`: `this.width = 30`). -/
def ENEMY_WIDTH : ℚ := 30

/-- Enemy sprite height (`Enemy.js`: `this.height = 40`). -/
def ENEMY_HEIGHT : ℚ := 40

/-- Horizontal enemy speed (`Enemy.js`: `this.horizontalMoveSpeed = 0.3`). -/
def ENEMY_HORIZONTAL_SPEED : ℚ := 3 / 10

/-- Vertical descent step (`Enemy.js`: `this.verticalMoveSpeed = 20`). -/
def ENEMY_VERTICAL_SPEED : ℚ := 20

/-- Bullet sprite width (`Bullet.js`: `this.width = 20`). -/
def BULLET_WIDTH : ℚ := 20

/-- Bullet sprite height (`Bullet.js`: `this.height = 25`). -/
def BULLET_HEIGHT : ℚ := 25

/-- An axis-aligned sprite box as every drawable entity stores it: top-left
corner plus width and height. The collision code only reads the four edge
getters below. -/
structure Box where
  x : ℚ
  y : ℚ
  w : ℚ
  h : ℚ
deriving DecidableEq, Repr

/-- `getTopEdge()` of a sprite or bullet: the `y` position. -/
def Box.getTopEdge (b : Box) : ℚ := b.y

/-- `getBottomEdge()`: `y + height`. -/
def Box.getBottomEdge (b : Box) : ℚ := b.y + b.h

/-- `getLeftEdge()`: the `x` position. -/
def Box.getLeftEdge (b : Box) : ℚ := b.x

/-- `getRightEdge()`: `x + width`. -/
def Box.getRightEdge (b : Box) : ℚ := b.x + b.w

/-- `collisionDetected(sprite, projectile)` from `script.js` lines 217-240:
no collision iff the projectile is fully above, below, right of, or left of
the sprite (non-strict comparisons); collision otherwise. -/
def collisionDetected (sprite projectile : Box) : Bool :=
  if projectile.getBottomEdge ≤ sprite.getTopEdge ∨
      projectile.getTopEdge ≥ sprite.getBottomEdge ∨
      projectile.getLeftEdge ≥ sprite.getRightEdge ∨
      projectile.getRightEdge ≤ sprite.getLeftEdge then
    false
  else
    true

/-- The mutable state of an `Enemy` instance that the grid logic reads and
writes: position and the `isGoingRight` flag (`Enemy.js`). Width, height and
the two speeds are constructor constants, kept as the module constants
above. -/
structure Enemy where
  xPosition : ℚ
  yPosition : ℚ
  isGoingRight : Bool
deriving DecidableEq, Repr

/-- `Enemy.getLeftEdge()` (`Enemy.js` line 253). -/
def Enemy.getLeftEdge (e : Enemy) : ℚ := e.xPosition

/-- `Enemy.getRightEdge()` (`Enemy.js` line 240): `xPosition + width`. -/
def Enemy.getRightEdge (e : Enemy) : ℚ := e.xPosition + ENEMY_WIDTH

/-- `Enemy.getTopEdge()` (`Enemy.js` line 226). -/
def Enemy.getTopEdge (e : Enemy) : ℚ := e.yPosition

/-- `Enemy.getBottomEdge()` (`Enemy.js` line 213): `yPosition + height`. -/
def Enemy.getBottomEdge (e : Enemy) : ℚ := e.yPosition + ENEMY_HEIGHT

/-- `Enemy.getMiddlePosition()` (`Enemy.js` line 199): `xPosition + width / 2`. -/
def Enemy.getMiddlePosition (e : Enemy) : ℚ := e.xPosition + ENEMY_WIDTH / 2

/-- `Enemy.setDirectionRight()` (`Enemy.js` line 170). -/
def Enemy.setDirectionRight (e : Enemy) : Enemy := { e with isGoingRight := true }

/-- `Enemy.setDirectionLeft()` (`Enemy.js` line 183). -/
def Enemy.setDirectionLeft (e : Enemy) : Enemy := { e with isGoingRight := false }

/-- `Enemy.moveDown()` (`Enemy.js` lines 153-157): adds `verticalMoveSpeed`
to `yPosition` when that speed is positive. -/
def Enemy.moveDown (e : Enemy) : Enemy :=
  if ENEMY_VERTICAL_SPEED > 0 then
    { e with yPosition := e.yPosition + ENEMY_VERTICAL_SPEED }
  else
    e

/-- The bounding box the collision resolver reads off an enemy. -/
def Enemy.toBox (e : Enemy) : Box :=
  ⟨e.xPosition, e.yPosition, ENEMY_WIDTH, ENEMY_HEIGHT⟩

/-- A `Bullet` (`Bullet.js`): position, signed vertical speed and the shooter
tag (`"player"` or an enemy tag such as `"enemy_1"`). Width and height are
the constants above. -/
structure Bullet where
  x : ℚ
  y : ℚ
  speed : ℚ
  shooter : String
deriving DecidableEq, Repr

/-- The bounding box the collision resolver reads off a bullet. -/
def Bullet.toBox (b : Bullet) : Box := ⟨b.x, b.y, BULLET_WIDTH, BULLET_HEIGHT⟩

/-- The vertical displacement at the end of `Bullet.draw` (`Bullet.js`:
`this.y -= this.speed`). -/
def Bullet.advance (b : Bullet) : Bullet := { b with y := b.y - b.speed }

/-- The mutable state of a `BulletControl` instance (`BulletControl.js`):
the `height` property of the canvas object it was constructed with, the pool
of bullets, the cooldown counter `waitTime`, and the `shooter` tag of the
last `shoot` call (`none` before the first call, when the field is still
`undefined`).

`canvasHeight` is the value of `this.canvas.height`, the only property
`BulletControl` ever reads off the stored canvas. Both pools in the program
are constructed with the `CANVAS` wrapper (`script.js` lines 35-36), which
carries its numeric size at `WIDTH`/`HEIGHT` and has no `height` property:
for them `canvasHeight` is `none` (`undefined`). `some h` models a canvas
object that does carry a numeric `height` property `h`. -/
structure BulletControl where
  canvasHeight : Option ℚ
  bullets : List Bullet
  waitTime : ℤ
  shooter : Option String
deriving DecidableEq, Repr

/-- `BulletControl.shoot(x, y, speed, delay, shooter)` (`BulletControl.js`
lines 42-63): record the shooter tag; push a new bullet and reset `waitTime`
to `delay` when `waitTime <= 0`; then decrement `waitTime` when the shooter
is not the player. -/
def BulletControl.shoot (st : BulletControl) (x y speed : ℚ) (delay : ℤ)
    (shooter : String) : BulletControl :=
  let st1 : BulletControl := { st with shooter := some shooter }
  let st2 : BulletControl :=
    if st1.waitTime ≤ 0 then
      { st1 with bullets := st1.bullets ++ [⟨x, y, speed, shooter⟩], waitTime := delay }
    else
      st1
  if shooter ≠ "player" then { st2 with waitTime := st2.waitTime - 1 } else st2

/-- `BulletControl.isOffScreen(bullet)` (`BulletControl.js` lines 68-83):
the source returns true iff `Bullet.y <= -this.canvas.height`. When the
stored canvas has no `height` property — as with the `CANVAS` wrapper both
pools are constructed with — `-this.canvas.height` is `NaN` and the
comparison is false for every bullet, modelled by the `none` branch. -/
def BulletControl.isOffScreen (canvasHeight : Option ℚ) (b : Bullet) : Bool :=
  match canvasHeight with
  | some h => b.y ≤ -h
  | none => false

/-- The pool traversal inside `BulletControl.draw` (`BulletControl.js` lines
85-112): a `forEach` over the live array that splices out off-screen bullets
and then calls `Bullet.draw` (which moves the bullet) on the visited element.
Splicing during `forEach` shifts the array under the cached iteration bound,
so the element directly after a removed one is neither visited (hence not
moved) nor checked this pass. -/
def BulletControl.drawBullets (canvasHeight : Option ℚ) : List Bullet → List Bullet
  | [] => []
  | b :: rest =>
    if BulletControl.isOffScreen canvasHeight b then
      match rest with
      | [] => []
      | c :: rest2 => c :: BulletControl.drawBullets canvasHeight rest2
    else
      b.advance :: BulletControl.drawBullets canvasHeight rest

/-- `BulletControl.draw(ctx)` (`BulletControl.js` lines 85-112): decrement
`waitTime` when the last shooter was the player, then run the pool traversal. -/
def BulletControl.draw (st : BulletControl) : BulletControl :=
  let st1 : BulletControl :=
    if st.shooter = some "player" then { st with waitTime := st.waitTime - 1 } else st
  { st1 with bullets := BulletControl.drawBullets st1.canvasHeight st1.bullets }

/-- `BulletControl.destroyBullet(bullet)` (`BulletControl.js` lines 119-124):
remove the first occurrence of the bullet from the pool, no-op if absent. -/
def BulletControl.destroyBullet (bullets : List Bullet) (b : Bullet) : List Bullet :=
  bullets.erase b

/-- The module-level health state of `Lives.js`: the hit-point counter `hp`,
the displayed ceiling `maxHP`, and the `tempHPBlock` flag toggled by the
bonus-heart rendering code. -/
structure LivesState where
  hp : ℤ
  maxHP : ℤ
  tempHPBlock : Bool
deriving DecidableEq, Repr

/-- `Lives.healthModifier(i)` (`Lives.js` lines 26-36): add `i` to `hp`;
when `tempHPBlock` is false, also add `i` to `maxHP`; finally clamp `maxHP`
to at most 3. -/
def healthModifier (i : ℤ) (st : LivesState) : LivesState :=
  let hp2 := st.hp + i
  let m1 := if st.tempHPBlock = false then st.maxHP + i else st.maxHP
  let m2 := if m1 > 3 then 3 else m1
  ⟨hp2, m2, st.tempHPBlock⟩

/-- A cell of the enemy grid: `some e` for a live enemy, `none` for the
boolean `false` the collision code writes into a destroyed cell. -/
abbrev EnemyCell := Option Enemy

/-- The 2-D enemy grid owned by `EnemyGridController`. Row 0 is the top row;
the last row is closest to the player. -/
abbrev EnemyGrid := List (List EnemyCell)

/-- `EnemyGridController.anyEnemiesAlive()` (`EnemyGridController.js` lines
430-432): returns the grid's length, the number 0 serving as the falsy
"no enemies" answer. -/
def anyEnemiesAlive (g : EnemyGrid) : Nat := g.length

/-- `EnemyGridController.findLeftMostEnemies()` (`EnemyGridController.js`
lines 252-264): collect `enemyGrid[row][0]` for each row, skipping rows
whose cell 0 is destroyed or out of range. -/
def findLeftMostEnemies (g : EnemyGrid) : List Enemy :=
  g.filterMap fun row => (row.get? 0).join

/-- `EnemyGridController.findRightMostEnemies()` (`EnemyGridController.js`
lines 277-290): collect `enemyGrid[row][row.length - 1]` for each row,
skipping destroyed or missing cells. -/
def findRightMostEnemies (g : EnemyGrid) : List Enemy :=
  g.filterMap fun row => (row.get? (row.length - 1)).join

/-- `EnemyGridController.changeEnemyDirection(toGoRight)`
(`EnemyGridController.js` lines 192-206): for every live cell, set the
requested direction and then call `moveDown()`. -/
def changeEnemyDirection (toGoRight : Bool) (g : EnemyGrid) : EnemyGrid :=
  g.map fun row =>
    row.map fun cell =>
      cell.map fun e =>
        ((if toGoRight then e.setDirectionRight else e.setDirectionLeft)).moveDown

/-- `EnemyGridController.move()` (`EnemyGridController.js` lines 160-178):
two independent `if` blocks. The left check reads the first collected
left-most enemy; when it fires, the whole grid flips right and descends.
The right check then reads the first collected right-most enemy; the source
computed both lists before the first check, which is equivalent to reading
them here because `changeEnemyDirection` changes no `xPosition` and neither
adds nor removes cells. -/
def move (g : EnemyGrid) : EnemyGrid :=
  let g1 : EnemyGrid :=
    match findLeftMostEnemies g with
    | [] => g
    | e :: _ => if e.getLeftEdge ≤ PADDING_SIDE then changeEnemyDirection true g else g
  match findRightMostEnemies g with
  | [] => g1
  | e :: _ =>
    if e.getRightEdge ≥ CANVAS_WIDTH - PADDING_SIDE then changeEnemyDirection false g1 else g1

/-- `EnemyGridController.clearEnemyGridRows()` (`EnemyGridController.js`
lines 348-360): scan the bottom row; if any cell is live, return `false`
and leave the grid alone, otherwise pop the bottom row and return `true`.
On a zero-row grid the source reads `this.enemyGrid[-1].length`, i.e. a
property of `undefined`, which throws a `TypeError`: modelled as `none`. -/
def clearEnemyGridRows (g : EnemyGrid) : Option (EnemyGrid × Bool) :=
  match g.getLast? with
  | none => none
  | some bottomRow =>
    if bottomRow.any (fun c => c.isSome) then some (g, false)
    else some (g.dropLast, true)

/-- The number of live enemies in column `c` of the grid, as accumulated by
the tracker array of `clearEnemyGridColumns` (`EnemyGridController.js`
lines 386-398). -/
def columnLiveCount (g : EnemyGrid) (c : Nat) : Nat :=
  g.countP fun row => ((row.get? c).join).isSome

/-- `EnemyGridController.clearEnemyGridColumns()` (`EnemyGridController.js`
lines 384-416): count live enemies per original column index into a tracker
of length `GRID_SIZE.COLUMNS`, then walk the tracker indices in increasing
order and splice that index out of every (already shifted) row whenever the
tracked count is zero. -/
def clearEnemyGridColumns (g : EnemyGrid) : EnemyGrid :=
  (List.range GRID_COLUMNS).foldl
    (fun acc colIdx =>
      if columnLiveCount g colIdx = 0 then acc.map (fun row => row.eraseIdx colIdx)
      else acc)
    g

/-- The game-script state touched by `enemyCollisionHandler` (`script.js`):
the enemy grid, the scoreboard total, and the player projectile pool. -/
structure ScriptState where
  enemyGrid : EnemyGrid
  score : ℤ
  playerBullets : List Bullet
deriving DecidableEq, Repr

/-- The inner `forEach` of `enemyCollisionHandler` over one row (`script.js`
lines 181-200): each live cell that overlaps the projectile is tombstoned,
`destroyBullet` runs on the player pool, and the score grows by 250; the
scan continues through the whole row. Returns the rewritten row together
with the threaded score and pool. -/
def enemyCollisionRow (proj : Bullet) :
    List EnemyCell → ℤ → List Bullet → List EnemyCell × ℤ × List Bullet
  | [], score, pool => ([], score, pool)
  | cell :: rest, score, pool =>
    match cell with
    | some e =>
      if collisionDetected e.toBox proj.toBox then
        let r := enemyCollisionRow proj rest (score + 250)
          (BulletControl.destroyBullet pool proj)
        (none :: r.1, r.2.1, r.2.2)
      else
        let r := enemyCollisionRow proj rest score pool
        (some e :: r.1, r.2.1, r.2.2)
    | none =>
      let r := enemyCollisionRow proj rest score pool
      (none :: r.1, r.2.1, r.2.2)

/-- The outer `forEach` of `enemyCollisionHandler` over the rows, threading
score and pool in row-major scan order. -/
def enemyCollisionGrid (proj : Bullet) :
    EnemyGrid → ℤ → List Bullet → EnemyGrid × ℤ × List Bullet
  | [], score, pool => ([], score, pool)
  | row :: rows, score, pool =>
    let r := enemyCollisionRow proj row score pool
    let rr := enemyCollisionGrid proj rows r.2.1 r.2.2
    (r.1 :: rr.1, rr.2.1, rr.2.2)

/-- `enemyCollisionHandler(projectile)` (`script.js` lines 180-201) as a
state transformer for one projectile. -/
def enemyCollisionHandler (proj : Bullet) (st : ScriptState) : ScriptState :=
  let r := enemyCollisionGrid proj st.enemyGrid st.score st.playerBullets
  ⟨r.1, r.2.1, r.2.2⟩

/-- The row a projectile leaves behind: every live cell whose box overlaps
the projectile is tombstoned, every other cell is unchanged. This is the
specification-side description of what one `enemyCollisionHandler` scan does
to a row. -/
def tombstoneRow (proj : Bullet) (row : List EnemyCell) : List EnemyCell :=
  row.map fun cell =>
    match cell with
    | some e => if collisionDetected e.toBox proj.toBox then none else some e
    | none => none

/-- The number of live cells of a row whose box overlaps the projectile. -/
def rowHitCount (proj : Bullet) (row : List EnemyCell) : Nat :=
  row.countP fun cell =>
    match cell with
    | some e => collisionDetected e.toBox proj.toBox
    | none => false

/-- The number of live cells of the whole grid whose box overlaps the
projectile. -/
def gridHitCount (proj : Bullet) (g : EnemyGrid) : Nat :=
  (g.map (rowHitCount proj)).sum

/-! ### Helper lemmas -/

lemma changeEnemyDirection_eq (b : Bool) (g : EnemyGrid) :
    changeEnemyDirection b g =
      g.map fun row => row.map fun cell => cell.map fun e =>
        ⟨e.xPosition, e.yPosition + ENEMY_VERTICAL_SPEED, b⟩ := by
  have hfun : ∀ e : Enemy,
      ((if b then e.setDirectionRight else e.setDirectionLeft)).moveDown
        = ⟨e.xPosition, e.yPosition + ENEMY_VERTICAL_SPEED, b⟩ := by
    intro e
    cases b <;>
      simp [Enemy.setDirectionRight, Enemy.setDirectionLeft, Enemy.moveDown,
        ENEMY_VERTICAL_SPEED]
  simp only [changeEnemyDirection, hfun]

lemma move_left_only (g : EnemyGrid) (e : Enemy)
    (h1 : (findLeftMostEnemies g).head? = some e)
    (h2 : e.getLeftEdge ≤ PADDING_SIDE)
    (h3 : ∀ e2, (findRightMostEnemies g).head? = some e2 →
      e2.getRightEdge < CANVAS_WIDTH - PADDING_SIDE) :
    move g = changeEnemyDirection true g := by
  unfold move
  cases hl : findLeftMostEnemies g with
  | nil => rw [hl] at h1; exact Option.noConfusion h1
  | cons a rest =>
    rw [hl] at h1
    have ha : a = e := by simpa using h1
    subst ha
    cases hr : findRightMostEnemies g with
    | nil => simp [h2]
    | cons b2 rest2 =>
      have hb := h3 b2 (by rw [hr]; rfl)
      simp [h2, not_le.mpr hb]

lemma move_right_only (g : EnemyGrid) (e : Enemy)
    (hL : ∀ e2, (findLeftMostEnemies g).head? = some e2 → PADDING_SIDE < e2.getLeftEdge)
    (h1 : (findRightMostEnemies g).head? = some e)
    (h2 : CANVAS_WIDTH - PADDING_SIDE ≤ e.getRightEdge) :
    move g = changeEnemyDirection false g := by
  unfold move
  cases hr : findRightMostEnemies g with
  | nil => rw [hr] at h1; exact Option.noConfusion h1
  | cons b2 rest2 =>
    rw [hr] at h1
    have hb : b2 = e := by simpa using h1
    subst hb
    cases hl : findLeftMostEnemies g with
    | nil => simp [h2]
    | cons a rest =>
      have ha := hL a (by rw [hl]; rfl)
      simp [h2, not_le.mpr ha]

lemma move_both (g : EnemyGrid) (e e2 : Enemy)
    (h1 : (findLeftMostEnemies g).head? = some e)
    (h2 : e.getLeftEdge ≤ PADDING_SIDE)
    (h3 : (findRightMostEnemies g).head? = some e2)
    (h4 : CANVAS_WIDTH - PADDING_SIDE ≤ e2.getRightEdge) :
    move g = changeEnemyDirection false (changeEnemyDirection true g) := by
  unfold move
  cases hl : findLeftMostEnemies g with
  | nil => rw [hl] at h1; exact Option.noConfusion h1
  | cons a rest =>
    rw [hl] at h1
    have ha : a = e := by simpa using h1
    subst ha
    cases hr : findRightMostEnemies g with
    | nil => rw [hr] at h3; exact Option.noConfusion h3
    | cons b2 rest2 =>
      rw [hr] at h3
      have hb : b2 = e2 := by simpa using h3
      subst hb
      simp [h2, h4]

lemma rowHitCount_nil (proj : Bullet) : rowHitCount proj [] = 0 := rfl

lemma gridHitCount_nil (proj : Bullet) : gridHitCount proj [] = 0 := rfl

lemma rowHitCount_cons_none (proj : Bullet) (rest : List EnemyCell) :
    rowHitCount proj (none :: rest) = rowHitCount proj rest := by
  simp [rowHitCount, List.countP_cons]

lemma rowHitCount_cons_some (proj : Bullet) (e : Enemy) (rest : List EnemyCell) :
    rowHitCount proj (some e :: rest)
      = rowHitCount proj rest + (if collisionDetected e.toBox proj.toBox then 1 else 0) := by
  simp [rowHitCount, List.countP_cons]

lemma tombstoneRow_cons (proj : Bullet) (cell : EnemyCell) (rest : List EnemyCell) :
    tombstoneRow proj (cell :: rest)
      = (match cell with
          | some e => if collisionDetected e.toBox proj.toBox then none else some e
          | none => none) :: tombstoneRow proj rest := by
  simp [tombstoneRow]

lemma gridHitCount_cons (proj : Bullet) (row : List EnemyCell) (rows : EnemyGrid) :
    gridHitCount proj (row :: rows) = rowHitCount proj row + gridHitCount proj rows := by
  simp [gridHitCount]

lemma erase_erase_of_count_le_one (pool : List Bullet) (b : Bullet)
    (h : pool.count b ≤ 1) : (pool.erase b).erase b = pool.erase b := by
  have h2 : b ∉ pool.erase b := by
    intro hmem
    have h3 := List.count_pos_iff.mpr hmem
    have h1 : (pool.erase b).count b = pool.count b - 1 := List.count_erase_self b pool
    omega
  exact List.erase_of_not_mem h2

lemma enemyCollisionRow_spec (proj : Bullet) (row : List EnemyCell) :
    ∀ (s : ℤ) (pool : List Bullet), pool.count proj ≤ 1 →
      enemyCollisionRow proj row s pool =
        (tombstoneRow proj row, s + 250 * (rowHitCount proj row : ℤ),
          if rowHitCount proj row = 0 then pool else pool.erase proj) := by
  induction row with
  | nil => intro s pool h; simp [enemyCollisionRow, tombstoneRow, rowHitCount]
  | cons cell rest ih =>
    intro s pool h
    cases cell with
    | none =>
      simp only [enemyCollisionRow, ih s pool h, tombstoneRow_cons, rowHitCount_cons_none]
    | some e =>
      by_cases hc : collisionDetected e.toBox proj.toBox = true
      · have hcount : (pool.erase proj).count proj ≤ 1 := by
          have h1 : (pool.erase proj).count proj = pool.count proj - 1 :=
            List.count_erase_self proj pool
          omega
        simp only [enemyCollisionRow, if_pos hc, BulletControl.destroyBullet,
          ih (s + 250) (pool.erase proj) hcount, tombstoneRow_cons, rowHitCount_cons_some,
          if_true, Prod.mk.injEq]
        refine ⟨trivial, by push_cast; ring, ?_⟩
        rw [if_neg (show ¬(rowHitCount proj rest + 1 = 0) by omega)]
        split
        · rfl
        · exact erase_erase_of_count_le_one pool proj h
      · simp only [enemyCollisionRow, if_neg hc, ih s pool h, tombstoneRow_cons,
          rowHitCount_cons_some, Nat.add_zero]

lemma enemyCollisionGrid_spec (proj : Bullet) (g : EnemyGrid) :
    ∀ (s : ℤ) (pool : List Bullet), pool.count proj ≤ 1 →
      enemyCollisionGrid proj g s pool =
        (g.map (tombstoneRow proj), s + 250 * (gridHitCount proj g : ℤ),
          if gridHitCount proj g = 0 then pool else pool.erase proj) := by
  induction g with
  | nil => intro s pool h; simp [enemyCollisionGrid, gridHitCount]
  | cons row rows ih =>
    intro s pool h
    simp only [enemyCollisionGrid, enemyCollisionRow_spec proj row s pool h,
      gridHitCount_cons, List.map_cons]
    by_cases hrc : rowHitCount proj row = 0
    · rw [if_pos hrc, ih (s + 250 * (rowHitCount proj row : ℤ)) pool h]
      simp only [Prod.mk.injEq]
      refine ⟨trivial, by push_cast; ring, ?_⟩
      rw [hrc]
      simp
    · have hcount : (pool.erase proj).count proj ≤ 1 := by
        have h1 : (pool.erase proj).count proj = pool.count proj - 1 :=
          List.count_erase_self proj pool
        omega
      rw [if_neg hrc, ih (s + 250 * (rowHitCount proj row : ℤ)) (pool.erase proj) hcount]
      simp only [Prod.mk.injEq]
      refine ⟨trivial, by push_cast; ring, ?_⟩
      rw [if_neg (show ¬(rowHitCount proj row + gridHitCount proj rows = 0) by omega)]
      split
      · rfl
      · exact erase_erase_of_count_le_one pool proj h

lemma drawBullets_cons_keep (H : Option ℚ) (c : Bullet) (rest : List Bullet)
    (hcf : BulletControl.isOffScreen H c = false) :
    BulletControl.drawBullets H (c :: rest)
      = c.advance :: BulletControl.drawBullets H rest := by
  rw [BulletControl.drawBullets.eq_def]
  simp [hcf]

lemma drawBullets_none (bullets : List Bullet) :
    BulletControl.drawBullets none bullets = bullets.map Bullet.advance := by
  induction bullets with
  | nil => rfl
  | cons b rest ih =>
    rw [drawBullets_cons_keep none b rest rfl, ih, List.map_cons]


lemma draw_bullets_eq (st : BulletControl) :
    (st.draw).bullets = BulletControl.drawBullets st.canvasHeight st.bullets := by
  simp only [BulletControl.draw]
  split <;> rfl

/-! ### Claims -/

/-- Claim C1 (code bug): the compaction pass `clearEnemyGridColumns` walks
the tracker indices in increasing order while splicing, so already-shifted
columns are removed at stale indices. On the one-row grid
`[alive, dead, dead, alive]` (two adjacent entirely-dead columns), the pass
returns `[alive, dead]`: the second dead column survives (its live count in
the result is 0 while the grid is nonempty and both rows still have a cell
at index 1), and the live enemy that sat in column 3 has been destroyed —
contradicting both the claimed invariant and the method's own description
"removes any and all empty columns". -/
theorem c1_clearEnemyGridColumns_adjacent_dead_columns :
    clearEnemyGridColumns
        [[some ⟨100, 40, true⟩, none, none, some ⟨220, 40, true⟩]]
      = [[some ⟨100, 40, true⟩, none]] ∧
    columnLiveCount
        (clearEnemyGridColumns
          [[some ⟨100, 40, true⟩, none, none, some ⟨220, 40, true⟩]]) 1 = 0 ∧
    (clearEnemyGridColumns
        [[some ⟨100, 40, true⟩, none, none, some ⟨220, 40, true⟩]]).all
      (fun row => row.length = 2) = true := by
  decide

/-- Claim C2 (counterexample): a player projectile at `(110, 110)` overlaps
both enemies of the row `[enemy at (100, 100), enemy at (105, 100)]`, and the
handler tombstones BOTH cells and adds 250 TWICE (score 500), not once —
the scan has no first-match cutoff. -/
theorem c2_first_match_only_counterexample :
    collisionDetected (Enemy.toBox ⟨100, 100, true⟩)
        (Bullet.toBox ⟨110, 110, 5, "player"⟩) = true ∧
    collisionDetected (Enemy.toBox ⟨105, 100, true⟩)
        (Bullet.toBox ⟨110, 110, 5, "player"⟩) = true ∧
    enemyCollisionHandler ⟨110, 110, 5, "player"⟩
        ⟨[[some ⟨100, 100, true⟩, some ⟨105, 100, true⟩]], 0,
          [⟨110, 110, 5, "player"⟩]⟩
      = ⟨[[none, none]], 500, []⟩ := by
  norm_num [enemyCollisionHandler, enemyCollisionGrid, enemyCollisionRow,
    collisionDetected, Enemy.toBox, Bullet.toBox, Box.getTopEdge, Box.getBottomEdge,
    Box.getLeftEdge, Box.getRightEdge, BulletControl.destroyBullet,
    List.erase, ENEMY_WIDTH, ENEMY_HEIGHT, BULLET_WIDTH, BULLET_HEIGHT]

/-- Claim C2 (amended): for a projectile occurring at most once in the
player pool (guaranteed in the running game, where every bullet is a
distinct object), `enemyCollisionHandler` tombstones EVERY overlapped live
cell, adds 250 per overlapped cell, leaves all other cells unchanged, and
removes the projectile from the pool once if there was at least one hit. -/
theorem c2_all_matches_take_effect (proj : Bullet) (st : ScriptState)
    (h : st.playerBullets.count proj ≤ 1) :
    enemyCollisionHandler proj st =
      ⟨st.enemyGrid.map (tombstoneRow proj),
        st.score + 250 * (gridHitCount proj st.enemyGrid : ℤ),
        if gridHitCount proj st.enemyGrid = 0 then st.playerBullets
        else st.playerBullets.erase proj⟩ := by
  simp only [enemyCollisionHandler,
    enemyCollisionGrid_spec proj st.enemyGrid st.score st.playerBullets h]

/-- Witness for C2: one live overlapped cell next to a dead one — the cell
is tombstoned, the score grows by exactly 250, the projectile is removed. -/
theorem c2_all_matches_witness :
    enemyCollisionHandler ⟨110, 110, 5, "player"⟩
        ⟨[[some ⟨100, 100, true⟩, none]], 0, [⟨110, 110, 5, "player"⟩]⟩
      = ⟨[[none, none]], 250, []⟩ := by
  rw [c2_all_matches_take_effect ⟨110, 110, 5, "player"⟩
    ⟨[[some ⟨100, 100, true⟩, none]], 0, [⟨110, 110, 5, "player"⟩]⟩ (by decide)]
  norm_num [tombstoneRow, gridHitCount_cons, gridHitCount_nil, rowHitCount_cons_some,
    rowHitCount_cons_none, rowHitCount_nil, collisionDetected, Enemy.toBox,
    Bullet.toBox, Box.getTopEdge, Box.getBottomEdge, Box.getLeftEdge, Box.getRightEdge,
    ENEMY_WIDTH, ENEMY_HEIGHT, BULLET_WIDTH, BULLET_HEIGHT]

/-- Claim C3 (code bug): `isOffScreen` reads `this.canvas.height`, but both
pools are constructed with the `CANVAS` wrapper (`script.js` lines 35-36),
whose numeric height is stored at `HEIGHT`; its `height` property is
undefined, so the check is `Bullet.y <= NaN`, false for every bullet. One
tick of `BulletControl.draw` therefore removes nothing: it maps every bullet
to its advanced position, and in particular a bullet sitting exactly at
`y = -480 = -CANVAS.HEIGHT`, which the claim says must be removed, survives
the tick. The function doc ("check if bullet is off screen") and the `draw`
comment ("destroying that bullet") make removal the evident intent; the
property mismatch is the slip. -/
theorem c3_offscreen_removal_never_fires :
    (∀ b : Bullet, BulletControl.isOffScreen none b = false) ∧
    (∀ (bullets : List Bullet) (w : ℤ) (sh : Option String),
      (BulletControl.draw ⟨none, bullets, w, sh⟩).bullets = bullets.map Bullet.advance) ∧
    (BulletControl.draw
        ⟨none, [⟨10, -480, 5, "player"⟩], 0, none⟩).bullets
      = [⟨10, -485, 5, "player"⟩] := by
  refine ⟨fun b => rfl, ?_, ?_⟩
  · intro bullets w sh
    rw [draw_bullets_eq]
    exact drawBullets_none bullets
  · rw [draw_bullets_eq]
    rw [show (⟨none, [⟨10, -480, 5, "player"⟩], 0, none⟩ : BulletControl).canvasHeight
      = none from rfl]
    rw [drawBullets_none]
    norm_num [Bullet.advance]

/-- Claim C4 (counterexample): on the zero-row grid, `clearEnemyGridRows`
reads `this.enemyGrid[-1].length`, a property of `undefined`, and throws a
`TypeError` — modelled here by the `none` result. The operation is not total
at zero rows. -/
theorem c4_zero_row_grid_counterexample :
    clearEnemyGridRows ([] : EnemyGrid) = none := rfl

/-- Claim C4 (amended): `clearEnemyGridRows` terminates normally (returns a
value instead of raising) on every grid with at least one row; the zero-row
grid is the sole exception, and the tick caller in `script.js` only invokes
the grid tick when `anyEnemiesAlive()` is nonzero. -/
theorem c4_total_on_nonempty (g : EnemyGrid) (h : g ≠ []) :
    (clearEnemyGridRows g).isSome = true := by
  cases hg : g.getLast? with
  | none => exact absurd (List.getLast?_eq_none_iff.mp hg) h
  | some row =>
    simp only [clearEnemyGridRows, hg]
    split <;> rfl

/-- Witness for C4: a one-row grid is handled normally. -/
theorem c4_total_on_nonempty_witness :
    (clearEnemyGridRows [[some ⟨100, 40, true⟩]]).isSome = true :=
  c4_total_on_nonempty [[some ⟨100, 40, true⟩]] (by simp)

/-- Claim C5: for boxes with positive width and height (every sprite and
projectile in the program has constant positive size), `collisionDetected`
returns true iff the two boxes have positive-length overlap on both axes;
each of the four boundary-touching configurations is reported as
non-colliding. -/
theorem c5_collision_iff_positive_overlap (sprite projectile : Box)
    (hsw : 0 < sprite.w) (hsh : 0 < sprite.h)
    (hpw : 0 < projectile.w) (hph : 0 < projectile.h) :
    (collisionDetected sprite projectile = true ↔
      (max sprite.getLeftEdge projectile.getLeftEdge
          < min sprite.getRightEdge projectile.getRightEdge ∧
        max sprite.getTopEdge projectile.getTopEdge
          < min sprite.getBottomEdge projectile.getBottomEdge)) ∧
    ((projectile.getBottomEdge = sprite.getTopEdge ∨
      projectile.getTopEdge = sprite.getBottomEdge ∨
      projectile.getLeftEdge = sprite.getRightEdge ∨
      projectile.getRightEdge = sprite.getLeftEdge) →
      collisionDetected sprite projectile = false) := by
  obtain ⟨sx, sy, sw, sh⟩ := sprite
  obtain ⟨px, py, pw, ph⟩ := projectile
  simp only [collisionDetected, Box.getTopEdge, Box.getBottomEdge, Box.getLeftEdge,
    Box.getRightEdge, ge_iff_le] at *
  constructor
  · split
    · rename_i hC
      simp only [Bool.false_eq_true, false_iff, not_and]
      intro hx hy
      simp only [max_lt_iff, lt_min_iff] at hx hy
      rcases hC with h | h | h | h <;> linarith [hx.1.1, hx.1.2, hx.2.1, hx.2.2,
        hy.1.1, hy.1.2, hy.2.1, hy.2.2]
    · rename_i hC
      push_neg at hC
      obtain ⟨h1, h2, h3, h4⟩ := hC
      simp only [true_iff, max_lt_iff, lt_min_iff]
      refine ⟨⟨⟨?_, ?_⟩, ?_, ?_⟩, ⟨?_, ?_⟩, ?_, ?_⟩ <;> linarith
  · intro htouch
    have hC : py + ph ≤ sy ∨ sy + sh ≤ py ∨ sx + sw ≤ px ∨ px + pw ≤ sx := by
      rcases htouch with h | h | h | h
      · left; linarith
      · right; left; linarith
      · right; right; left; linarith
      · right; right; right; linarith
    rw [if_pos hC]

/-- Witness for C5: the specification's scenario pair — sprite at
`(100, 100, 30, 40)` and projectile at `(105, 130, 20, 25)` collide; a
projectile whose right edge exactly touches the sprite's left edge does
not. -/
theorem c5_collision_witness :
    collisionDetected ⟨100, 100, 30, 40⟩ ⟨105, 130, 20, 25⟩ = true ∧
    collisionDetected ⟨100, 100, 30, 40⟩ ⟨70, 100, 30, 40⟩ = false := by
  constructor
  · exact (c5_collision_iff_positive_overlap ⟨100, 100, 30, 40⟩ ⟨105, 130, 20, 25⟩
      (by norm_num) (by norm_num) (by norm_num) (by norm_num)).1.mpr
      (by norm_num [Box.getTopEdge, Box.getBottomEdge, Box.getLeftEdge, Box.getRightEdge])
  · exact (c5_collision_iff_positive_overlap ⟨100, 100, 30, 40⟩ ⟨70, 100, 30, 40⟩
      (by norm_num) (by norm_num) (by norm_num) (by norm_num)).2
      (Or.inr (Or.inr (Or.inr
        (by norm_num [Box.getRightEdge, Box.getLeftEdge]))))

/-- Claim C6: `BulletControl.shoot` admits a projectile into the pool iff
`waitTime <= 0`; on admission the counter is reset to the given delay (and
the uniform per-request decrement then lowers it by one for non-player
shooters). A request arriving at `waitTime = 5` leaves the pool unchanged,
and after the five decrements performed by five such rejected enemy
requests, the sixth identical request is admitted. -/
theorem c6_shoot_cooldown :
    (∀ (st : BulletControl) (x y sp : ℚ) (d : ℤ) (sh : String),
      (st.shoot x y sp d sh).bullets =
        if st.waitTime ≤ 0 then st.bullets ++ [⟨x, y, sp, sh⟩] else st.bullets) ∧
    (∀ (st : BulletControl) (x y sp : ℚ) (d : ℤ) (sh : String), st.waitTime ≤ 0 →
      (st.shoot x y sp d sh).waitTime = if sh = "player" then d else d - 1) ∧
    (∀ (st : BulletControl) (x y sp : ℚ) (d : ℤ), st.waitTime = 5 →
      (st.shoot x y sp d "enemy_1").bullets = st.bullets ∧
      (((((st.shoot x y sp d "enemy_1").shoot x y sp d "enemy_1").shoot
          x y sp d "enemy_1").shoot x y sp d "enemy_1").shoot x y sp d "enemy_1").waitTime
        = 0 ∧
      ((((((st.shoot x y sp d "enemy_1").shoot x y sp d "enemy_1").shoot
          x y sp d "enemy_1").shoot x y sp d "enemy_1").shoot x y sp d "enemy_1").shoot
          x y sp d "enemy_1").bullets
        = st.bullets ++ [⟨x, y, sp, "enemy_1"⟩]) := by
  have hne : ("enemy_1" : String) ≠ "player" := by decide
  refine ⟨?_, ?_, ?_⟩
  · intro st x y sp d sh
    by_cases h : st.waitTime ≤ 0 <;> by_cases hsh : sh = "player" <;>
      simp [BulletControl.shoot, h, hsh]
  · intro st x y sp d sh h
    by_cases hsh : sh = "player" <;> simp [BulletControl.shoot, h, hsh]
  · intro st x y sp d h5
    simp [BulletControl.shoot, h5, hne]

/-- Witness for C6: starting from an empty pool with `waitTime = 5`, the
first request is rejected and the sixth is admitted. -/
theorem c6_shoot_cooldown_witness :
    ((⟨none, [], 5, none⟩ : BulletControl).shoot 1 2 3 7 "enemy_1").bullets = [] ∧
    (((((((⟨none, [], 5, none⟩ : BulletControl).shoot 1 2 3 7 "enemy_1").shoot
        1 2 3 7 "enemy_1").shoot 1 2 3 7 "enemy_1").shoot 1 2 3 7 "enemy_1").shoot
        1 2 3 7 "enemy_1").shoot 1 2 3 7 "enemy_1").bullets
      = [⟨1, 2, 3, "enemy_1"⟩] := by
  have h := c6_shoot_cooldown.2.2 (⟨none, [], 5, none⟩ : BulletControl) 1 2 3 7 rfl
  exact ⟨h.1, by simpa using h.2.2⟩

/-- Claim C7 (counterexample): in the grid whose column 0 holds a live cell
at `x = 100` (row 0) above a live cell at `x = 50` (row 1), the cell at
`x = 50` is a collected left-most live cell with left edge `50 ≤ 60`, yet
`move` changes nothing: the source consults only the FIRST collected
left-most enemy (`leftMostEnemies[0]`, here the `x = 100` cell), so no cell
turns right and no cell descends. -/
theorem c7_bounce_counterexample :
    (⟨50, 0, false⟩ : Enemy) ∈ findLeftMostEnemies
        [[some ⟨100, 0, false⟩], [some ⟨50, 0, false⟩]] ∧
    (⟨50, 0, false⟩ : Enemy).getLeftEdge ≤ PADDING_SIDE ∧
    move [[some ⟨100, 0, false⟩], [some ⟨50, 0, false⟩]]
      = [[some ⟨100, 0, false⟩], [some ⟨50, 0, false⟩]] ∧
    (⟨50, 0, false⟩ : Enemy).isGoingRight = false := by
  norm_num [move, findLeftMostEnemies, findRightMostEnemies,
    Enemy.getLeftEdge, Enemy.getRightEdge, PADDING_SIDE, CANVAS_WIDTH, ENEMY_WIDTH,
    List.filterMap]

/-- Claim C7 (amended): when the FIRST collected left-most live cell has
left edge at most the side padding and the right-bound condition does not
hold, every live cell turns right and descends by exactly the vertical
step; symmetrically for the right bound when the left-bound condition does
not hold. (In the running game all live column-0 cells share one `x`, so
"first" and "some" coincide there; and the two bound conditions cannot hold
at once — but neither fact is true of arbitrary grid states, see the
counterexample and claim C8.) -/
theorem c7_bounce_amended :
    (∀ (g : EnemyGrid) (e : Enemy),
      (findLeftMostEnemies g).head? = some e →
      e.getLeftEdge ≤ PADDING_SIDE →
      (∀ e2, (findRightMostEnemies g).head? = some e2 →
        e2.getRightEdge < CANVAS_WIDTH - PADDING_SIDE) →
      move g = g.map fun row => row.map fun cell => cell.map fun en =>
        ⟨en.xPosition, en.yPosition + ENEMY_VERTICAL_SPEED, true⟩) ∧
    (∀ (g : EnemyGrid) (e : Enemy),
      (findRightMostEnemies g).head? = some e →
      CANVAS_WIDTH - PADDING_SIDE ≤ e.getRightEdge →
      (∀ e2, (findLeftMostEnemies g).head? = some e2 → PADDING_SIDE < e2.getLeftEdge) →
      move g = g.map fun row => row.map fun cell => cell.map fun en =>
        ⟨en.xPosition, en.yPosition + ENEMY_VERTICAL_SPEED, false⟩) := by
  constructor
  · intro g e h1 h2 h3
    rw [move_left_only g e h1 h2 h3, changeEnemyDirection_eq]
  · intro g e h1 h2 h3
    rw [move_right_only g e h3 h1 h2, changeEnemyDirection_eq]

/-- Witness for C7: a single cell on the left bound turns right and
descends by 20; a single cell on the right bound turns left and descends
by 20. -/
theorem c7_bounce_witness :
    move [[some ⟨60, 0, false⟩]] = [[some ⟨60, 20, true⟩]] ∧
    move [[some ⟨550, 0, true⟩]] = [[some ⟨550, 20, false⟩]] := by
  constructor
  · rw [c7_bounce_amended.1 [[some ⟨60, 0, false⟩]] ⟨60, 0, false⟩ rfl
      (by norm_num [Enemy.getLeftEdge, PADDING_SIDE])
      (by intro e2 he2
          simp only [findRightMostEnemies] at he2
          norm_num at he2
          subst he2
          norm_num [Enemy.getRightEdge, CANVAS_WIDTH, PADDING_SIDE, ENEMY_WIDTH])]
    norm_num [ENEMY_VERTICAL_SPEED]
  · rw [c7_bounce_amended.2 [[some ⟨550, 0, true⟩]] ⟨550, 0, true⟩ rfl
      (by norm_num [Enemy.getRightEdge, CANVAS_WIDTH, PADDING_SIDE, ENEMY_WIDTH])
      (by intro e2 he2
          simp only [findLeftMostEnemies] at he2
          norm_num at he2
          subst he2
          norm_num [Enemy.getLeftEdge, PADDING_SIDE])]
    norm_num [ENEMY_VERTICAL_SPEED]

/-- Claim C8 (counterexample): in the one-row grid with a live cell at
`x = 50` (left edge `50 ≤ 60`) and a live cell at `x = 560` (right edge
`590 ≥ 580`), the left-bound check fires AND the right-bound check also
fires in the same `move` call: the two checks are independent `if`s, so the
grid flips right, then left, and descends twice (`y` grows by 40, final
direction left). -/
theorem c8_single_bounce_counterexample :
    (findLeftMostEnemies [[some ⟨50, 0, true⟩, some ⟨560, 0, true⟩]]).head?
      = some ⟨50, 0, true⟩ ∧
    (⟨50, 0, true⟩ : Enemy).getLeftEdge ≤ PADDING_SIDE ∧
    move [[some ⟨50, 0, true⟩, some ⟨560, 0, true⟩]]
      = [[some ⟨50, 40, false⟩, some ⟨560, 40, false⟩]] := by
  norm_num [move, findLeftMostEnemies, findRightMostEnemies,
    changeEnemyDirection, Enemy.getLeftEdge, Enemy.getRightEdge, Enemy.setDirectionRight,
    Enemy.setDirectionLeft, Enemy.moveDown, PADDING_SIDE, CANVAS_WIDTH, ENEMY_WIDTH,
    ENEMY_VERTICAL_SPEED, List.filterMap]

/-- Claim C8 (amended): the left-bound check is evaluated first, and a
bounce is exclusive only when at most one bound condition holds: left-only
gives one right-flip-and-descent, right-only one left-flip-and-descent, but
when both bound conditions hold in the same `move` call both checks take
effect — the grid flips right then left and descends two steps. -/
theorem c8_bounce_exclusivity_amended :
    (∀ (g : EnemyGrid) (e : Enemy),
      (findLeftMostEnemies g).head? = some e →
      e.getLeftEdge ≤ PADDING_SIDE →
      (∀ e2, (findRightMostEnemies g).head? = some e2 →
        e2.getRightEdge < CANVAS_WIDTH - PADDING_SIDE) →
      move g = changeEnemyDirection true g) ∧
    (∀ (g : EnemyGrid) (e : Enemy),
      (findRightMostEnemies g).head? = some e →
      CANVAS_WIDTH - PADDING_SIDE ≤ e.getRightEdge →
      (∀ e2, (findLeftMostEnemies g).head? = some e2 → PADDING_SIDE < e2.getLeftEdge) →
      move g = changeEnemyDirection false g) ∧
    (∀ (g : EnemyGrid) (e e2 : Enemy),
      (findLeftMostEnemies g).head? = some e →
      e.getLeftEdge ≤ PADDING_SIDE →
      (findRightMostEnemies g).head? = some e2 →
      CANVAS_WIDTH - PADDING_SIDE ≤ e2.getRightEdge →
      move g = changeEnemyDirection false (changeEnemyDirection true g)) := by
  refine ⟨?_, ?_, ?_⟩
  · intro g e h1 h2 h3
    exact move_left_only g e h1 h2 h3
  · intro g e h1 h2 h3
    exact move_right_only g e h3 h1 h2
  · intro g e e2 h1 h2 h3 h4
    exact move_both g e e2 h1 h2 h3 h4

/-- Witness for C8: a grid touching both bounds takes both flips and two
descents in one `move` call. -/
theorem c8_bounce_exclusivity_witness :
    move [[some ⟨55, 0, true⟩, some ⟨555, 0, true⟩]] =
      changeEnemyDirection false
        (changeEnemyDirection true [[some ⟨55, 0, true⟩, some ⟨555, 0, true⟩]]) :=
  c8_bounce_exclusivity_amended.2.2 [[some ⟨55, 0, true⟩, some ⟨555, 0, true⟩]]
    ⟨55, 0, true⟩ ⟨555, 0, true⟩ rfl (by norm_num [Enemy.getLeftEdge, PADDING_SIDE]) rfl
    (by norm_num [Enemy.getRightEdge, CANVAS_WIDTH, PADDING_SIDE, ENEMY_WIDTH])

/-- Claim C9: when the bottom row is entirely dead, `clearEnemyGridRows`
pops exactly that one row (the row count drops by exactly 1 in the tick),
and if it was the only row, `anyEnemiesAlive()` returns the falsy value 0
afterwards. -/
theorem c9_bottom_row_compaction (g : EnemyGrid) (row : List EnemyCell)
    (hlast : g.getLast? = some row) (hdead : ∀ c ∈ row, c = none) :
    clearEnemyGridRows g = some (g.dropLast, true) ∧
    g.dropLast.length + 1 = g.length ∧
    (g.length = 1 → anyEnemiesAlive g.dropLast = 0) := by
  have hne : g ≠ [] := by
    intro h
    rw [h] at hlast
    exact Option.noConfusion hlast
  have hlen : 1 ≤ g.length := by
    cases g with
    | nil => exact absurd rfl hne
    | cons a l => simp
  have hany : ¬(row.any (fun c => c.isSome) = true) := by
    simp only [List.any_eq_true, not_exists, not_and]
    intro c hc
    rw [hdead c hc]
    simp
  refine ⟨?_, ?_, ?_⟩
  · simp only [clearEnemyGridRows, hlast]
    rw [if_neg hany]
  · simp only [List.length_dropLast]
    omega
  · intro h1
    simp only [anyEnemiesAlive, List.length_dropLast]
    omega

/-- Witness for C9: a single fully-dead row is popped and the wave is over. -/
theorem c9_bottom_row_compaction_witness :
    clearEnemyGridRows [[none, none]] = some (([] : EnemyGrid), true) ∧
    anyEnemiesAlive ([] : EnemyGrid) = 0 := by
  have h := c9_bottom_row_compaction [[none, none]] [none, none] rfl (by simp)
  exact ⟨by simpa using h.1, h.2.2 rfl⟩

/-- Claim C10: `healthModifier(-1)` lowers `hp` by one and, whenever
`tempHPBlock` is false, also lowers `maxHP` by one; `maxHP` is clamped
above at 3 (`min _ 3`) and never clamped below, so it follows `hp` to 0 and
below. -/
theorem c10_healthModifier_lowers_maxHP (st : LivesState)
    (h : st.tempHPBlock = false) :
    (healthModifier (-1) st).hp = st.hp - 1 ∧
    (healthModifier (-1) st).maxHP = min (st.maxHP - 1) 3 := by
  simp only [healthModifier, h]
  refine ⟨by ring, ?_⟩
  rw [min_def]
  by_cases h2 : st.maxHP + -1 > 3 <;> by_cases h3 : st.maxHP - 1 ≤ 3 <;>
    simp only [h2, h3, if_true, if_false, if_pos, if_neg, not_false_iff] <;> omega

/-- Witness for C10: taking a hit at `maxHP = 0` drives `maxHP` to `-1` —
no lower clamp. -/
theorem c10_healthModifier_witness :
    (healthModifier (-1) ⟨0, 0, false⟩).hp = -1 ∧
    (healthModifier (-1) ⟨0, 0, false⟩).maxHP = -1 := by
  have h := c10_healthModifier_lowers_maxHP ⟨0, 0, false⟩ rfl
  refine ⟨by rw [h.1]; decide, by rw [h.2]; decide⟩

end CollegeInvaders
